import Mathlib

/-!
Shallow embedding of `src/libaktualizr/bootloader/bootloader.cc`
(the bootloader-integration layer of the aktualizr OTA client).

The embedding models:
- the rollback-mode dispatch of `setBootOK`, `updateNotify`, `installNotify`
  (shell commands issued via `Utils::shell`, modelled by an executor oracle
  `sh : String → Int × String` giving exit status and captured output);
- the reboot sentinel / durable need-reboot flag protocol
  (`rebootDetected`, `rebootFlagSet`, `rebootFlagClear`), with the two
  writes of each mutator modelled as an explicit list of atomic steps so
  that a fault between them is expressible;
- `reboot` (fake and real paths).

Fallible operations return `Except Unit _` mirroring the C++
`throw NotImplementedException()` in each `default:` switch arm.
-/

/-- The `RollbackMode` enumeration of the bootloader config.  C++ enums can
carry out-of-range values, which fall into the `default:` arm of every
switch in the source; `unrecognized` stands for any such value. -/
inductive RollbackMode where
  | kBootloaderNone
  | kUbootGeneric
  | kUbootMasked
  | kFioVB
  | unrecognized
deriving DecidableEq, Repr

/-- The facade state fixed at construction: the configured rollback mode and
the detection-capability flag `reboot_detect_supported_` (computed once from
`Utils::createSecureDirectory` in the constructor). -/
structure Bootloader where
  rollback_mode : RollbackMode
  reboot_detect_supported : Bool
deriving DecidableEq, Repr

/-- The external mutable world the sentinel/flag protocol acts on:
the durable need-reboot flag held by `INvStorage` and the existence of the
sentinel file on the filesystem. -/
structure BootState where
  needReboot : Bool
  sentinel : Bool
deriving DecidableEq, Repr

/-- `Utils::writeFile(reboot_sentinel_, "", false)`: creates the (empty)
sentinel file. -/
def writeSentinelStep (s : BootState) : BootState := { s with sentinel := true }

/-- `storage_.storeNeedReboot()`: sets the durable flag. -/
def storeNeedRebootStep (s : BootState) : BootState := { s with needReboot := true }

/-- `storage_.clearNeedReboot()`: clears the durable flag. -/
def clearNeedRebootStep (s : BootState) : BootState := { s with needReboot := false }

/-- `boost::filesystem::remove(reboot_sentinel_)`: removes the sentinel file. -/
def removeSentinelStep (s : BootState) : BootState := { s with sentinel := false }

/-- The two atomic writes of `Bootloader::rebootFlagSet`, in source order:
sentinel file first, then the durable flag. -/
def rebootFlagSetSteps : List (BootState → BootState) :=
  [writeSentinelStep, storeNeedRebootStep]

/-- The two atomic writes of `Bootloader::rebootFlagClear`, in source order:
durable flag first, then the sentinel file. -/
def rebootFlagClearSteps : List (BootState → BootState) :=
  [clearNeedRebootStep, removeSentinelStep]

/-- Run a sequence of atomic state writes in order. -/
def runSteps (fs : List (BootState → BootState)) (s : BootState) : BootState :=
  fs.foldl (fun st f => f st) s

/-- A fault injected after the first write and before the second: only the
first step of the operation has executed. -/
def faultAfterFirst (fs : List (BootState → BootState)) (s : BootState) : BootState :=
  runSteps (fs.take 1) s

/-- `Bootloader::rebootFlagSet`: no-op when detection is unsupported,
otherwise both writes in order. -/
def rebootFlagSet (b : Bootloader) (s : BootState) : BootState :=
  if !b.reboot_detect_supported then s
  else runSteps rebootFlagSetSteps s

/-- `Bootloader::rebootFlagClear`: no-op when detection is unsupported,
otherwise both writes in order. -/
def rebootFlagClear (b : Bootloader) (s : BootState) : BootState :=
  if !b.reboot_detect_supported then s
  else runSteps rebootFlagClearSteps s

/-- `Bootloader::rebootDetected`: false when unsupported, otherwise
`need_reboot && !sentinel_exists` with `need_reboot` loaded from storage. -/
def rebootDetected (b : Bootloader) (s : BootState) : Bool :=
  if !b.reboot_detect_supported then false
  else s.needReboot && !s.sentinel

/-- `Bootloader::supportRebootDetection`. -/
def supportRebootDetection (b : Bootloader) : Bool := b.reboot_detect_supported

/-- Outcome of `Bootloader::reboot`: the resulting world state, whether
`sync()` ran, and whether the configured reboot command was invoked.
The source function returns `void` and never throws. -/
structure RebootOutcome where
  state : BootState
  synced : Bool
  rebootCmdIssued : Bool
deriving DecidableEq, Repr

/-- `Bootloader::reboot(fake_reboot)`.  `setuidResult` is the return value of
`setuid(0)`; `systemResult` the exit status of `system(reboot_command_)`.
The fake path removes the sentinel and returns; the real path returns
without sync or command when elevation fails, and otherwise syncs and
invokes the reboot command (a non-zero status is only logged). -/
def reboot (b : Bootloader) (fake_reboot : Bool) (setuidResult systemResult : Int)
    (s : BootState) : RebootOutcome :=
  if fake_reboot then
    { state := removeSentinelStep s, synced := false, rebootCmdIssued := false }
  else if setuidResult ≠ 0 then
    { state := s, synced := false, rebootCmdIssued := false }
  else
    { state := s, synced := true, rebootCmdIssued := true }

/-- `Bootloader::setBootOK`.  `sh` is the `Utils::shell` executor oracle
(exit status, captured output); exit statuses only drive warning logs, so
the behaviour is the ordered list of commands issued.  The `default:` arm
throws `NotImplementedException`, modelled as `Except.error ()`. -/
def setBootOK (sh : String → Int × String) (b : Bootloader) :
    Except Unit (List String) :=
  match b.rollback_mode with
  | RollbackMode.kBootloaderNone => Except.ok []
  | RollbackMode.kUbootGeneric =>
      let _ := sh "fw_setenv bootcount 0"
      Except.ok ["fw_setenv bootcount 0"]
  | RollbackMode.kUbootMasked =>
      let _ := sh "fw_setenv bootcount 0"
      let _ := sh "fw_setenv upgrade_available 0"
      Except.ok ["fw_setenv bootcount 0", "fw_setenv upgrade_available 0"]
  | RollbackMode.kFioVB =>
      let _ := sh "fiovb_setenv bootcount 0"
      let _ := sh "fiovb_setenv upgrade_available 0"
      Except.ok ["fiovb_setenv bootcount 0", "fiovb_setenv upgrade_available 0"]
  | RollbackMode.unrecognized => Except.error ()

/-- `Bootloader::updateNotify`: same dispatch shape as `setBootOK`, but
sets `upgrade_available 1` (masked and FioVB only) and resets `rollback 0`. -/
def updateNotify (sh : String → Int × String) (b : Bootloader) :
    Except Unit (List String) :=
  match b.rollback_mode with
  | RollbackMode.kBootloaderNone => Except.ok []
  | RollbackMode.kUbootGeneric =>
      let _ := sh "fw_setenv bootcount 0"
      let _ := sh "fw_setenv rollback 0"
      Except.ok ["fw_setenv bootcount 0", "fw_setenv rollback 0"]
  | RollbackMode.kUbootMasked =>
      let _ := sh "fw_setenv bootcount 0"
      let _ := sh "fw_setenv upgrade_available 1"
      let _ := sh "fw_setenv rollback 0"
      Except.ok ["fw_setenv bootcount 0", "fw_setenv upgrade_available 1",
                 "fw_setenv rollback 0"]
  | RollbackMode.kFioVB =>
      let _ := sh "fiovb_setenv bootcount 0"
      let _ := sh "fiovb_setenv upgrade_available 1"
      let _ := sh "fiovb_setenv rollback 0"
      Except.ok ["fiovb_setenv bootcount 0", "fiovb_setenv upgrade_available 1",
                 "fiovb_setenv rollback 0"]
  | RollbackMode.unrecognized => Except.error ()

/-- First index at which `pat` occurs as a contiguous sublist of `s`
(`std::string::find`; `none` is `npos`). -/
def findSub (pat : List Char) : List Char → Option Nat
  | [] => if pat.isEmpty then some 0 else none
  | c :: cs =>
      if pat.isPrefixOf (c :: cs) then some 0
      else (findSub pat cs).map (· + 1)

/-- `std::string::erase(i, n)`: removes (at most) `n` characters starting at
index `i`. -/
def eraseAt (s : List Char) (i n : Nat) : List Char :=
  s.take i ++ (s.drop i).drop n

/-- The `version_flag` string of `installNotify`. -/
def versionFlag : List Char := "bootfirmware_version".data

/-- The version-file post-processing of `installNotify`: find the first
occurrence of `"bootfirmware_version"` in the file contents and erase it
together with the following character (`version_flag.length() + 1`). -/
def targetFirmwareVer (content : String) : String :=
  match findSub versionFlag content.data with
  | none => content
  | some i => String.mk (eraseAt content.data i (versionFlag.length + 1))

/-- `std::ifstream` + `istreambuf_iterator` read of the version file: a
missing/unreadable file yields the empty string (the failed stream's
iterator range is empty), never an exception. -/
def readVersionFile (versionFile : Option String) : String :=
  match versionFile with
  | none => ""
  | some content => content

/-- `Bootloader::installNotify`.  `versionFile` is the contents of
`/ostree/deploy/lmp/deploy/<hash>.0/usr/lib/firmware/version.txt`
(`none` when missing).  For the masked/FioVB arms the captured output of
the `printenv` command (`sink`) is compared against the stripped target
version; the `setenv bootupgrade_available 1` command runs only when they
differ.  Exit statuses only drive warning logs. -/
def installNotify (sh : String → Int × String) (b : Bootloader)
    (versionFile : Option String) : Except Unit (List String) :=
  let target_firmware_ver := targetFirmwareVer (readVersionFile versionFile)
  match b.rollback_mode with
  | RollbackMode.kBootloaderNone => Except.ok []
  | RollbackMode.kUbootGeneric => Except.ok []
  | RollbackMode.kUbootMasked =>
      let sink := (sh "fw_printenv bootfirmware_version").2
      if sink ≠ target_firmware_ver then
        let _ := sh "fw_setenv bootupgrade_available 1"
        Except.ok ["fw_printenv bootfirmware_version",
                   "fw_setenv bootupgrade_available 1"]
      else
        Except.ok ["fw_printenv bootfirmware_version"]
  | RollbackMode.kFioVB =>
      let sink := (sh "fiovb_printenv bootfirmware_version").2
      if sink ≠ target_firmware_ver then
        let _ := sh "fiovb_setenv bootupgrade_available 1"
        Except.ok ["fiovb_printenv bootfirmware_version",
                   "fiovb_setenv bootupgrade_available 1"]
      else
        Except.ok ["fiovb_printenv bootfirmware_version"]
  | RollbackMode.unrecognized => Except.error ()

lemma isPrefixOf_append_self (l t : List Char) : l.isPrefixOf (l ++ t) = true := by
  induction l with
  | nil => simp [List.isPrefixOf]
  | cons a l ih => simp [List.isPrefixOf, ih]

lemma findSub_self (pat rest : List Char) (h : pat ≠ []) :
    findSub pat (pat ++ rest) = some 0 := by
  cases pat with
  | nil => exact absurd rfl h
  | cons p ps => simp [findSub, isPrefixOf_append_self]

/-- When the version-file contents start with the key prefix
`"bootfirmware_version="`, the stripped target version is exactly the
remainder of the contents. -/
lemma targetFirmwareVer_stripsKey (rest : String) :
    targetFirmwareVer ("bootfirmware_version=" ++ rest) = rest := by
  have hflag : "bootfirmware_version=".data = versionFlag ++ ['='] := by decide
  have hdata : ("bootfirmware_version=" ++ rest).data
      = versionFlag ++ ('=' :: rest.data) := by
    rw [String.data_append, hflag, List.append_assoc]
    rfl
  unfold targetFirmwareVer
  rw [hdata, findSub_self versionFlag _ (by decide)]
  have herase : eraseAt (versionFlag ++ ('=' :: rest.data)) 0 (versionFlag.length + 1)
      = rest.data := by
    unfold eraseAt
    simp only [List.take_zero, List.drop_zero, List.nil_append]
    have hsplit : versionFlag ++ ('=' :: rest.data)
        = (versionFlag ++ ['=']) ++ rest.data := by
      rw [List.append_assoc]; rfl
    rw [hsplit]
    have hlen : versionFlag.length + 1 = (versionFlag ++ ['=']).length := by simp
    rw [hlen, List.drop_left]
  show String.mk (eraseAt (versionFlag ++ ('=' :: rest.data)) 0 (versionFlag.length + 1))
      = rest
  rw [herase]

lemma targetFirmwareVer_empty : targetFirmwareVer "" = "" := by decide

/-- Claim C1: `rebootFlagSet` writes the sentinel strictly before the durable
flag and `rebootFlagClear` clears the durable flag strictly before removing
the sentinel (the ordered step lists), and for a fault injected after the
first write and before the second of either operation, `rebootDetected`
never incorrectly reports true when the durable flag is false, and never
incorrectly reports false when an update is pending and the reboot boundary
has been crossed (durable flag true and sentinel absent). -/
theorem claim_C1_crash_safety (m : RollbackMode) (s : BootState) :
    rebootFlagSetSteps = [writeSentinelStep, storeNeedRebootStep]
  ∧ rebootFlagClearSteps = [clearNeedRebootStep, removeSentinelStep]
  ∧ (¬(rebootDetected ⟨m, true⟩ (faultAfterFirst rebootFlagSetSteps s) = true
        ∧ (faultAfterFirst rebootFlagSetSteps s).needReboot = false))
  ∧ (¬(rebootDetected ⟨m, true⟩ (faultAfterFirst rebootFlagSetSteps s) = false
        ∧ (faultAfterFirst rebootFlagSetSteps s).needReboot = true
        ∧ (faultAfterFirst rebootFlagSetSteps s).sentinel = false))
  ∧ (¬(rebootDetected ⟨m, true⟩ (faultAfterFirst rebootFlagClearSteps s) = true
        ∧ (faultAfterFirst rebootFlagClearSteps s).needReboot = false))
  ∧ (¬(rebootDetected ⟨m, true⟩ (faultAfterFirst rebootFlagClearSteps s) = false
        ∧ (faultAfterFirst rebootFlagClearSteps s).needReboot = true
        ∧ (faultAfterFirst rebootFlagClearSteps s).sentinel = false)) := by
  obtain ⟨nr, sn⟩ := s
  refine ⟨rfl, rfl, ?_, ?_, ?_, ?_⟩ <;>
    simp [rebootDetected, faultAfterFirst, rebootFlagSetSteps, rebootFlagClearSteps,
          runSteps, writeSentinelStep, clearNeedRebootStep]

/-- Claim C2: `rebootDetected` is true iff detection is supported, the
durable flag (loaded from storage) is true and the sentinel file is absent;
immediately after `rebootFlagSet` it is false; after removing only the
sentinel it is true (when supported); after `rebootFlagClear` it is false
and the durable flag reads false. -/
theorem claim_C2_rebootDetected (m : RollbackMode) (sup : Bool) (s t : BootState) :
    rebootDetected ⟨m, sup⟩ s = (sup && (s.needReboot && !s.sentinel))
  ∧ rebootDetected ⟨m, sup⟩ (rebootFlagSet ⟨m, sup⟩ s) = false
  ∧ rebootDetected ⟨m, true⟩ (removeSentinelStep (rebootFlagSet ⟨m, true⟩ s)) = true
  ∧ rebootDetected ⟨m, true⟩ (rebootFlagClear ⟨m, true⟩ t) = false
  ∧ (rebootFlagClear ⟨m, true⟩ t).needReboot = false := by
  obtain ⟨nr, sn⟩ := s
  obtain ⟨nr', sn'⟩ := t
  cases sup <;>
    simp [rebootDetected, rebootFlagSet, rebootFlagClear, rebootFlagSetSteps,
          rebootFlagClearSteps, runSteps, writeSentinelStep, storeNeedRebootStep,
          clearNeedRebootStep, removeSentinelStep]

/-- Claim C6: when reboot detection is unsupported, `rebootFlagSet` and
`rebootFlagClear` leave the state (durable flag and sentinel) unchanged and
`rebootDetected` returns false, for every prior state. -/
theorem claim_C6_unsupported_noop (m : RollbackMode) (s : BootState) :
    rebootFlagSet ⟨m, false⟩ s = s
  ∧ rebootFlagClear ⟨m, false⟩ s = s
  ∧ rebootDetected ⟨m, false⟩ s = false :=
  ⟨rfl, rfl, rfl⟩

/-- Claim C8: `reboot` with `fake_reboot = true` removes the sentinel file,
leaves the durable need-reboot flag unchanged, performs no sync and issues
no reboot command, for every prior state and every executor outcome. -/
theorem claim_C8_fake_reboot (b : Bootloader) (r sysr : Int) (s : BootState) :
    reboot b true r sysr s
      = { state := { s with sentinel := false }, synced := false,
          rebootCmdIssued := false } := rfl

/-- Claim C10: `reboot(fake_reboot = true)` removes the sentinel even when
reboot detection is unsupported (it performs no capability check), whereas
`rebootFlagSet` and `rebootFlagClear` are no-ops in that same configuration. -/
theorem claim_C10_reboot_ignores_capability (m : RollbackMode) (r sysr : Int)
    (s : BootState) :
    (reboot ⟨m, false⟩ true r sysr s).state.sentinel = false
  ∧ (reboot ⟨m, false⟩ true r sysr s).state.needReboot = s.needReboot
  ∧ rebootFlagSet ⟨m, false⟩ s = s
  ∧ rebootFlagClear ⟨m, false⟩ s = s :=
  ⟨rfl, rfl, rfl, rfl⟩

/-- Claim C3: for every recognized rollback mode (None, UbootGeneric,
UbootMasked, FioVB), `setBootOK` and `updateNotify` return successfully for
every executor oracle (exit statuses only produce warnings); for an
unrecognized mode, all three lifecycle operations fail with the
unimplemented-path error. -/
theorem claim_C3_lifecycle_errors (sh : String → Int × String) (sup : Bool)
    (vf : Option String) :
    (setBootOK sh ⟨RollbackMode.kBootloaderNone, sup⟩).isOk = true
  ∧ (setBootOK sh ⟨RollbackMode.kUbootGeneric, sup⟩).isOk = true
  ∧ (setBootOK sh ⟨RollbackMode.kUbootMasked, sup⟩).isOk = true
  ∧ (setBootOK sh ⟨RollbackMode.kFioVB, sup⟩).isOk = true
  ∧ (updateNotify sh ⟨RollbackMode.kBootloaderNone, sup⟩).isOk = true
  ∧ (updateNotify sh ⟨RollbackMode.kUbootGeneric, sup⟩).isOk = true
  ∧ (updateNotify sh ⟨RollbackMode.kUbootMasked, sup⟩).isOk = true
  ∧ (updateNotify sh ⟨RollbackMode.kFioVB, sup⟩).isOk = true
  ∧ setBootOK sh ⟨RollbackMode.unrecognized, sup⟩ = Except.error ()
  ∧ updateNotify sh ⟨RollbackMode.unrecognized, sup⟩ = Except.error ()
  ∧ installNotify sh ⟨RollbackMode.unrecognized, sup⟩ vf = Except.error () := by
  refine ⟨rfl, rfl, rfl, rfl, rfl, rfl, rfl, rfl, rfl, rfl, rfl⟩

/-- Claim C7: the per-backend command decision table.  `setBootOK` issues no
commands for None; resets `bootcount` for UbootGeneric; resets `bootcount`
and clears `upgrade_available` for UbootMasked; does both via the `fiovb`
tools for FioVB.  `updateNotify` has the same shape but sets
`upgrade_available 1` (absent for UbootGeneric) and additionally resets
`rollback 0`. -/
theorem claim_C7_decision_table (sh : String → Int × String) (sup : Bool) :
    setBootOK sh ⟨RollbackMode.kBootloaderNone, sup⟩ = Except.ok []
  ∧ setBootOK sh ⟨RollbackMode.kUbootGeneric, sup⟩
      = Except.ok ["fw_setenv bootcount 0"]
  ∧ setBootOK sh ⟨RollbackMode.kUbootMasked, sup⟩
      = Except.ok ["fw_setenv bootcount 0", "fw_setenv upgrade_available 0"]
  ∧ setBootOK sh ⟨RollbackMode.kFioVB, sup⟩
      = Except.ok ["fiovb_setenv bootcount 0", "fiovb_setenv upgrade_available 0"]
  ∧ updateNotify sh ⟨RollbackMode.kBootloaderNone, sup⟩ = Except.ok []
  ∧ updateNotify sh ⟨RollbackMode.kUbootGeneric, sup⟩
      = Except.ok ["fw_setenv bootcount 0", "fw_setenv rollback 0"]
  ∧ updateNotify sh ⟨RollbackMode.kUbootMasked, sup⟩
      = Except.ok ["fw_setenv bootcount 0", "fw_setenv upgrade_available 1",
                   "fw_setenv rollback 0"]
  ∧ updateNotify sh ⟨RollbackMode.kFioVB, sup⟩
      = Except.ok ["fiovb_setenv bootcount 0", "fiovb_setenv upgrade_available 1",
                   "fiovb_setenv rollback 0"] := by
  refine ⟨rfl, rfl, rfl, rfl, rfl, rfl, rfl, rfl⟩

/-- Claim C9: on a real (non-fake) reboot, a failing `setuid(0)` makes
`reboot` return with no sync and no reboot command and no error; a
succeeding `setuid(0)` leads to a sync followed by the reboot command, and
the outcome is the same for every exit status of that command (a non-zero
status is only logged). -/
theorem claim_C9_real_reboot (b : Bootloader) (r sysr : Int) (s : BootState) :
    (r ≠ 0 → reboot b false r sysr s
      = { state := s, synced := false, rebootCmdIssued := false })
  ∧ (r = 0 → reboot b false r sysr s
      = { state := s, synced := true, rebootCmdIssued := true }) := by
  constructor
  · intro h
    simp [reboot, h]
  · intro h
    simp [reboot, h]

theorem claim_C9_real_reboot_witness :
    reboot ⟨RollbackMode.kBootloaderNone, true⟩ false 1 7 ⟨true, true⟩
      = { state := ⟨true, true⟩, synced := false, rebootCmdIssued := false }
  ∧ reboot ⟨RollbackMode.kBootloaderNone, true⟩ false 0 7 ⟨true, true⟩
      = { state := ⟨true, true⟩, synced := true, rebootCmdIssued := true } :=
  ⟨(claim_C9_real_reboot ⟨RollbackMode.kBootloaderNone, true⟩ 1 7 ⟨true, true⟩).1
      (by decide),
   (claim_C9_real_reboot ⟨RollbackMode.kBootloaderNone, true⟩ 0 7 ⟨true, true⟩).2 rfl⟩

/-- An executor oracle whose `printenv bootfirmware_version` output is a
non-empty current version `"2.0"`. -/
def shCurrent20 : String → Int × String := fun cmd =>
  if cmd = "fw_printenv bootfirmware_version" then (0, "2.0") else (0, "")

/-- Claim C4 counterexample: with the masked U-Boot backend, a missing
version file (read as empty contents) and a current firmware version of
`"2.0"`, `installNotify` does issue the `fw_setenv bootupgrade_available 1`
command — refuting the claim that a missing version file results in no such
command. -/
theorem claim_C4_counterexample :
    installNotify shCurrent20 ⟨RollbackMode.kUbootMasked, true⟩ none
      = Except.ok ["fw_printenv bootfirmware_version",
                   "fw_setenv bootupgrade_available 1"] := by
  rfl

/-- Claim C4 (amended): for the masked U-Boot and FioVB backends, a missing
(unreadable) target version file raises no error — the file reads as empty,
so the target version is the empty string and the
`setenv bootupgrade_available 1` command is issued if and only if the
`printenv` output is non-empty; all executor outcomes (any exit status) are
non-fatal and the operation completes. -/
theorem claim_C4_amended (sh : String → Int × String) (sup : Bool) :
    (installNotify sh ⟨RollbackMode.kUbootMasked, sup⟩ none).isOk = true
  ∧ (installNotify sh ⟨RollbackMode.kFioVB, sup⟩ none).isOk = true
  ∧ installNotify sh ⟨RollbackMode.kUbootMasked, sup⟩ none
      = Except.ok (if (sh "fw_printenv bootfirmware_version").2 ≠ "" then
          ["fw_printenv bootfirmware_version", "fw_setenv bootupgrade_available 1"]
        else ["fw_printenv bootfirmware_version"])
  ∧ installNotify sh ⟨RollbackMode.kFioVB, sup⟩ none
      = Except.ok (if (sh "fiovb_printenv bootfirmware_version").2 ≠ "" then
          ["fiovb_printenv bootfirmware_version", "fiovb_setenv bootupgrade_available 1"]
        else ["fiovb_printenv bootfirmware_version"]) := by
  refine ⟨?_, ?_, ?_, ?_⟩
  · simp only [installNotify, readVersionFile, targetFirmwareVer_empty]
    split <;> rfl
  · simp only [installNotify, readVersionFile, targetFirmwareVer_empty]
    split <;> rfl
  · by_cases h : (sh "fw_printenv bootfirmware_version").2 = ""
    · simp [installNotify, readVersionFile, targetFirmwareVer_empty, h]
    · simp [installNotify, readVersionFile, targetFirmwareVer_empty, h]
  · by_cases h : (sh "fiovb_printenv bootfirmware_version").2 = ""
    · simp [installNotify, readVersionFile, targetFirmwareVer_empty, h]
    · simp [installNotify, readVersionFile, targetFirmwareVer_empty, h]

/-- Claim C5: for the masked U-Boot and FioVB backends, `installNotify`
strips the leading `"bootfirmware_version="` key prefix of the version-file
contents to obtain the target firmware version, and issues the
`setenv bootupgrade_available 1` command exactly once if and only if the
current version reported by the `printenv` command differs from the target
version (and never issues it otherwise). -/
theorem claim_C5_firmware_version (sh : String → Int × String) (sup : Bool)
    (rest vfContent : String) :
    targetFirmwareVer ("bootfirmware_version=" ++ rest) = rest
  ∧ (installNotify sh ⟨RollbackMode.kUbootMasked, sup⟩ (some vfContent)).map
      (fun l => l.count "fw_setenv bootupgrade_available 1")
      = Except.ok (if (sh "fw_printenv bootfirmware_version").2
                      = targetFirmwareVer vfContent then 0 else 1)
  ∧ (installNotify sh ⟨RollbackMode.kFioVB, sup⟩ (some vfContent)).map
      (fun l => l.count "fiovb_setenv bootupgrade_available 1")
      = Except.ok (if (sh "fiovb_printenv bootfirmware_version").2
                      = targetFirmwareVer vfContent then 0 else 1) := by
  have c0 : List.count "fw_setenv bootupgrade_available 1"
      ["fw_printenv bootfirmware_version"] = 0 := by decide
  have c1 : List.count "fw_setenv bootupgrade_available 1"
      ["fw_printenv bootfirmware_version", "fw_setenv bootupgrade_available 1"]
      = 1 := by decide
  have d0 : List.count "fiovb_setenv bootupgrade_available 1"
      ["fiovb_printenv bootfirmware_version"] = 0 := by decide
  have d1 : List.count "fiovb_setenv bootupgrade_available 1"
      ["fiovb_printenv bootfirmware_version", "fiovb_setenv bootupgrade_available 1"]
      = 1 := by decide
  refine ⟨targetFirmwareVer_stripsKey rest, ?_, ?_⟩
  · by_cases h : (sh "fw_printenv bootfirmware_version").2 = targetFirmwareVer vfContent
    · simp [installNotify, readVersionFile, h, Except.map, c0, c1]
    · simp [installNotify, readVersionFile, h, Except.map, c0, c1]
  · by_cases h : (sh "fiovb_printenv bootfirmware_version").2 = targetFirmwareVer vfContent
    · simp [installNotify, readVersionFile, h, Except.map, d0, d1]
    · simp [installNotify, readVersionFile, h, Except.map, d0, d1]
